import Mathlib

/-!
Shallow embedding of the `bevy_webgate` multi-port server supervisor
(`src/server/{mod,manager,status,connection_tracker,task_store}.rs`).

Time is modelled as natural numbers: retry bookkeeping uses milliseconds
(`Instant` values), while the 100 ms polling loops of graceful shutdown are
modelled in poll ticks (one tick = one `ERROR_SLEEP_INTERVAL_MS` /
`SHUTDOWN_CHECK_INTERVAL_MS` sleep).  Concurrently mutated quantities that a
polling loop observes (active connection counts, task-store membership,
record presence) are supplied as oracles `Nat → _` indexed by the poll tick.
-/

namespace BevyWebgate

/-- mod.rs: `RETRY_DELAY_SECONDS = 10`. -/
def RETRY_DELAY_SECONDS : Nat := 10

/-- mod.rs: `MAX_RETRY_ATTEMPTS = 100`. -/
def MAX_RETRY_ATTEMPTS : Nat := 100

/-- Retry delay expressed in the millisecond time scale of the model
(`Duration::from_secs(RETRY_DELAY_SECONDS)`). -/
def retryDelayMillis : Nat := RETRY_DELAY_SECONDS * 1000

/-- Modelled from the spec: `src/server/mod.rs` declares `mod port` and
re-exports `WebPort`, but `port.rs` is not among the provided sources.  The
spec uses the port only as the unique key of the supervisor map, so it is
modelled as a plain natural number. -/
abbrev WebPort := Nat

/-- Opaque request router/handler token (`axum::Router` is an external
collaborator; only its identity matters to the supervisor). -/
structure Router where
  id : Nat
deriving DecidableEq

/-- status.rs: `ServerStatus`. -/
inductive ServerStatus where
  | Starting
  | Running
  | Failed
  | Retrying
  | Shutdown
  | ShuttingDown
  | Stopped
deriving DecidableEq

/-- status.rs: `Default for ServerStatus` is `Stopped`. -/
def ServerStatus.default : ServerStatus := .Stopped

/-- status.rs: `shutdown_requested` is true for Shutdown and ShuttingDown. -/
def ServerStatus.shutdown_requested : ServerStatus → Bool
  | .Shutdown => true
  | .ShuttingDown => true
  | _ => false

/-- status.rs: `can_start` is true for Stopped and Retrying. -/
def ServerStatus.can_start : ServerStatus → Bool
  | .Stopped => true
  | .Retrying => true
  | _ => false

/-- status.rs: `is_terminal` is true for Stopped and Failed. -/
def ServerStatus.is_terminal : ServerStatus → Bool
  | .Stopped => true
  | .Failed => true
  | _ => false

/-- connection_tracker.rs: the pair of atomic counters. -/
structure ConnectionTracker where
  active_count : Nat
  total_count : Nat
deriving DecidableEq

/-- connection_tracker.rs: `Default` starts both counters at zero. -/
def ConnectionTracker.default : ConnectionTracker := ⟨0, 0⟩

/-- connection_tracker.rs: `new_connection` increments total then active and
hands out a guard over the active counter. -/
def ConnectionTracker.new_connection (t : ConnectionTracker) : ConnectionTracker :=
  { t with total_count := t.total_count + 1, active_count := t.active_count + 1 }

/-- connection_tracker.rs: `ConnectionGuard::drop` decrements only the active
counter (every guard performs the same `fetch_sub(1)` on the shared counter,
so the state after a set of drops does not depend on the drop order). -/
def ConnectionTracker.guard_drop (t : ConnectionTracker) : ConnectionTracker :=
  { t with active_count := t.active_count - 1 }

/-- connection_tracker.rs: `active_connections`. -/
def ConnectionTracker.active_connections (t : ConnectionTracker) : Nat :=
  t.active_count

/-- connection_tracker.rs: `total_connections`. -/
def ConnectionTracker.total_connections (t : ConnectionTracker) : Nat :=
  t.total_count

/-- task_store.rs: `TaskType`. -/
inductive TaskType where
  | Server
  | Connection (id : Nat)
deriving DecidableEq

/-- task_store.rs: the `DashMap<TaskType, Task<AccessResult>>`.  For each
stored handle only `is_finished()` is ever observed, so an entry is modelled
as its key together with that flag. -/
structure TaskStore where
  entries : List (TaskType × Bool)
deriving DecidableEq

/-- Empty task store (`Default`). -/
def TaskStore.default : TaskStore := ⟨[]⟩

/-- task_store.rs: key membership query on the map. -/
def TaskStore.contains_key (st : TaskStore) (k : TaskType) : Bool :=
  st.entries.any (fun e => e.1 == k)

/-- task_store.rs: `cleanup_finished_tasks` retains exactly the unfinished
entries. -/
def TaskStore.cleanup_finished_tasks (st : TaskStore) : TaskStore :=
  ⟨st.entries.filter (fun e => !e.2)⟩

/-- task_store.rs: `finished_task_count`. -/
def TaskStore.finished_task_count (st : TaskStore) : Nat :=
  st.entries.countP (fun e => e.2)

/-- task_store.rs: `insert` first reaps finished entries, then stores the new
handle under its key (map semantics: an existing entry under the same key is
replaced). -/
def TaskStore.insert (st : TaskStore) (k : TaskType) (finished : Bool) : TaskStore :=
  ⟨(k, finished) :: (st.cleanup_finished_tasks.entries.filter (fun e => !(e.1 == k)))⟩

/-- task_store.rs / mod.rs: `remove` drops one key. -/
def TaskStore.remove (st : TaskStore) (k : TaskType) : TaskStore :=
  ⟨st.entries.filter (fun e => !(e.1 == k))⟩

/-- mod.rs `WebServer::stop`: `task_store.clear()`. -/
def TaskStore.clear (_st : TaskStore) : TaskStore := ⟨[]⟩

/-- mod.rs: the per-server record. -/
structure WebServer where
  ip : Nat
  port : WebPort
  router : Router
  status : ServerStatus
  task_store : TaskStore
  connection_tracker : ConnectionTracker
  last_error : Option String
  retry_count : Nat
  next_retry_time : Option Nat
deriving DecidableEq

/-- mod.rs: `WebServer::new`. -/
def WebServer.new (ip : Nat) (port : WebPort) (router : Router) : WebServer :=
  { ip := ip
    port := port
    router := router
    status := ServerStatus.default
    task_store := TaskStore.default
    connection_tracker := ConnectionTracker.default
    last_error := none
    retry_count := 0
    next_retry_time := none }

/-- mod.rs: `set_status`. -/
def WebServer.set_status (s : WebServer) (st : ServerStatus) : WebServer :=
  { s with status := st }

/-- mod.rs: `stop` clears all tracked tasks and sets the status to Stopped. -/
def WebServer.stop (s : WebServer) : WebServer :=
  { s with task_store := s.task_store.clear, status := .Stopped }

/-- mod.rs: `graceful_shutdown` sets the status to Shutdown. -/
def WebServer.graceful_shutdown (s : WebServer) : WebServer :=
  s.set_status .Shutdown

/-- mod.rs: `set_error` stores the message and marks the record Failed. -/
def WebServer.set_error (s : WebServer) (e : String) : WebServer :=
  { s with last_error := some e, status := .Failed }

/-- mod.rs: `clear_error`. -/
def WebServer.clear_error (s : WebServer) : WebServer :=
  { s with last_error := none }

/-- mod.rs: `should_retry` (now in milliseconds). -/
def WebServer.should_retry (s : WebServer) (now : Nat) : Bool :=
  if MAX_RETRY_ATTEMPTS ≤ s.retry_count then
    false
  else
    match s.next_retry_time with
    | some t => decide (t ≤ now)
    | none => true

/-- mod.rs: `schedule_retry`: below the cap it increments the count, stamps
the next retry time and enters Retrying; at the cap it records the terminal
error (which sets status Failed via `set_error`). -/
def WebServer.schedule_retry (s : WebServer) (now : Nat) : WebServer :=
  if s.retry_count < MAX_RETRY_ATTEMPTS then
    { s with
        retry_count := s.retry_count + 1
        next_retry_time := some (now + retryDelayMillis)
        status := .Retrying }
  else
    s.set_error "Max retry attempts reached"

/-- mod.rs: `reset_retry_count`, called after a successful bind. -/
def WebServer.reset_retry_count (s : WebServer) : WebServer :=
  { s with retry_count := 0, next_retry_time := none }

/-- mod.rs: `next_connection_id` reads the tracker's running total. -/
def WebServer.next_connection_id (s : WebServer) : Nat :=
  s.connection_tracker.total_connections

/-- mod.rs: `count_active_connections`. -/
def WebServer.count_active_connections (s : WebServer) : Nat :=
  s.connection_tracker.active_connections

/-- mod.rs: `new_connection` acquires a tracker guard (both counters go up). -/
def WebServer.new_connection (s : WebServer) : WebServer :=
  { s with connection_tracker := s.connection_tracker.new_connection }

/-- Helper for `str::contains`: does the pattern occur at the head of the
character list. -/
def charsStartWith : List Char → List Char → Bool
  | [], _ => true
  | _ :: _, [] => false
  | p :: ps, c :: cs => p == c && charsStartWith ps cs

/-- Helper for `str::contains`: does the pattern occur anywhere in the
character list. -/
def charsContain (pat : List Char) : List Char → Bool
  | [] => charsStartWith pat []
  | c :: cs => charsStartWith pat (c :: cs) || charsContain pat cs

/-- Rust `str::contains` on substrings. -/
def strContains (s pat : String) : Bool :=
  charsContain pat.data s.data

/-- manager.rs `start_server` spawned task: an error is treated as a
bind-class failure when its text contains "already in use" or "bind". -/
def bindClassError (e : String) : Bool :=
  strContains e "already in use" || strContains e "bind"

/-- error/mod.rs: the `WebServerError` variants the supervisor operations
return (payloads reduced to what the supervisor constructs). -/
inductive WebServerError where
  | BindFailed (ip : Nat) (port : WebPort) (msg : String)
  | ServerNotFound (port : WebPort)
  | ServerAlreadyRunning (port : WebPort)
deriving DecidableEq

/-- manager.rs: the `HashMap<WebPort, WebServer>` behind `WebServerManager`,
modelled as its lookup function. -/
structure WebServerManager where
  servers : WebPort → Option WebServer

/-- Empty manager (`Default`). -/
def WebServerManager.empty : WebServerManager := ⟨fun _ => none⟩

/-- HashMap `insert` on the port key. -/
def WebServerManager.update (m : WebServerManager) (p : WebPort) (s : WebServer) :
    WebServerManager :=
  ⟨fun q => if q = p then some s else m.servers q⟩

/-- manager.rs: `has_server` is `contains_key`. -/
def WebServerManager.has_server (m : WebServerManager) (p : WebPort) : Bool :=
  (m.servers p).isSome

/-- manager.rs: `get_server`. -/
def WebServerManager.get_server (m : WebServerManager) (p : WebPort) : Option WebServer :=
  m.servers p

/-- manager.rs: `add_server`.  The outcome of the speculative `test_bind`
probe is an environmental input: `none` for a successful probe, `some err`
for a failed one (in which case the record is inserted already failed-and-
retrying).  The Rust method mutates `self` and returns `Result<()>`; the
model returns the result together with the (possibly unchanged) map. -/
def WebServerManager.add_server (m : WebServerManager) (server : WebServer)
    (bindProbe : Option String) (now : Nat) :
    Except WebServerError Unit × WebServerManager :=
  if m.has_server server.port then
    (.error (.ServerAlreadyRunning server.port), m)
  else
    match bindProbe with
    | none => (.ok (), m.update server.port server)
    | some err =>
        (.ok (), m.update server.port ((server.set_error err).schedule_retry now))

/-- manager.rs: `remove_server` stops the record (a pure no-op on the map
since the record is dropped) and deletes the key; absent ports are ignored. -/
def WebServerManager.remove_server (m : WebServerManager) (p : WebPort) :
    WebServerManager :=
  ⟨fun q => if q = p then none else m.servers q⟩

/-- manager.rs: `set_router` replaces the handler of an existing record and
only logs when the port is absent. -/
def WebServerManager.set_router (m : WebServerManager) (p : WebPort) (r : Router) :
    WebServerManager :=
  match m.servers p with
  | some s => m.update p { s with router := r }
  | none => m

/-- manager.rs `start_server`, synchronous part: net effect on the record of
`clear_error`, `set_status(Starting)` and inserting the freshly spawned
(unfinished) Server task handle. -/
def WebServer.start_record (s : WebServer) : WebServer :=
  let s := s.clear_error
  let s := s.set_status .Starting
  { s with task_store := s.task_store.insert .Server false }

/-- manager.rs `changed`, per-record selection and start: a record is started
when its status permits it, it has no Server task, and (when Retrying) its
retry time has been reached.  In the source the selection pass sets Starting
and collects the port, and `start_server` then performs `clear_error`,
`set_status(Starting)` and the task insertion; sequentially `start_server`
cannot fail for a just-selected record, so the net per-record effect is
`start_record`. -/
def WebServerManager.changed_server (now : Nat) (s : WebServer) : WebServer :=
  if s.status.can_start
      && !(s.task_store.contains_key .Server)
      && (if s.status == .Retrying then s.should_retry now else true) then
    s.start_record
  else
    s

/-- manager.rs `changed`: returns immediately unless the resource was marked
changed (`dirty`), otherwise applies the per-record start pass to every
record (records are independent, so the iteration order of `iter_mut` does
not matter). -/
def WebServerManager.changed (m : WebServerManager) (now : Nat) (dirty : Bool) :
    WebServerManager :=
  if dirty then ⟨fun p => (m.servers p).map (changed_server now)⟩ else m

/-- manager.rs: `start_server` as seen by a direct caller (the Except-valued
surface): AlreadyRunning when a Server task exists, NotFound when the port is
absent, otherwise the record is started. -/
def WebServerManager.start_server (m : WebServerManager) (p : WebPort) :
    Except WebServerError WebServerManager :=
  match m.servers p with
  | none => .error (.ServerNotFound p)
  | some s =>
      if s.task_store.contains_key .Server then
        .error (.ServerAlreadyRunning p)
      else
        .ok (m.update p s.start_record)

/-- manager.rs `start_server` spawned task body, per-record effect once
`WebServer::run(port)` has resolved: on error the text is stored via
`set_error` and a bind-class error schedules a retry while any other error
leaves the record Failed; on success the status is set to Running. -/
def WebServer.handle_run_result (s : WebServer) (result : Option String) (now : Nat) :
    WebServer :=
  match result with
  | some err =>
      let s := s.set_error err
      if bindClassError err then s.schedule_retry now else s.set_status .Failed
  | none => s.set_status .Running

/-- manager.rs `start_server` spawned task: the completion callback applied
to the manager; a record that has disappeared is left alone
(`get_server_mut` returns None).  The task itself always resolves to
`Ok(())` — the first component — so no failure is ever propagated to the
executor or a caller. -/
def WebServerManager.server_task_completion (m : WebServerManager) (p : WebPort)
    (result : Option String) (now : Nat) :
    Except String Unit × WebServerManager :=
  match m.servers p with
  | none => (.ok (), m)
  | some s => (.ok (), m.update p (s.handle_run_result result now))

/-- mod.rs `listen_accept_loop`: after a successful bind the record is set
Running and its retry bookkeeping is reset. -/
def WebServerManager.bind_success (m : WebServerManager) (p : WebPort) :
    WebServerManager :=
  match m.servers p with
  | none => m
  | some s => m.update p ((s.set_status .Running).reset_retry_count)

/-- mod.rs `run`/`listen_accept_loop`: the `(ip, port, handler)` triple is
resolved once, before the loop, and `TowerToHyperService::new(router)` is
built from it; every accepted connection clones that captured service. -/
structure AcceptLoopState where
  ip : Nat
  port : WebPort
  service : Router
deriving DecidableEq

/-- mod.rs `server_info`: capture of the accept-loop state from the current
record at the moment the loop starts. -/
def WebServerManager.start_accept_loop (m : WebServerManager) (p : WebPort) :
    Option AcceptLoopState :=
  (m.servers p).map (fun s => ⟨s.ip, s.port, s.router⟩)

/-- Observable outcome of one accept-loop iteration. -/
inductive LoopStep where
  /-- Shutdown was observed before the accept: the loop returns `Ok(())`. -/
  | exited
  /-- A connection was accepted and a connection task spawned; records the
  service (router) the task will serve with and its connection id. -/
  | accepted (handler : Router) (connection_id : Nat)
  /-- The accept failed: log, sleep 100 ms, continue. -/
  | accept_error
  /-- The record vanished mid-iteration: the loop propagates the lookup
  error and ends. -/
  | failed
deriving DecidableEq

/-- mod.rs `listen_accept_loop`, one iteration of the loop body: read the
shutdown flag from the current record (absent record reads as false); if set,
return normally without touching any state; otherwise accept (`accept_ok` is
the environmental accept outcome) and on success spawn a connection task that
serves with the captured service, registering it in the task store under the
tracker-derived connection id. -/
def accept_loop_iteration (st : AcceptLoopState) (m : WebServerManager)
    (accept_ok : Bool) : LoopStep × WebServerManager :=
  let shutdown_requested :=
    match m.servers st.port with
    | some s => s.status.shutdown_requested
    | none => false
  if shutdown_requested then
    (.exited, m)
  else if accept_ok then
    match m.servers st.port with
    | some s =>
        let cid := s.next_connection_id
        (.accepted st.service cid,
          m.update st.port
            { s with task_store := s.task_store.insert (.Connection cid) false })
    | none => (.failed, m)
  else
    (.accept_error, m)

/-- mod.rs `graceful_shutdown_with_timeout`, first wait loop: while the
elapsed tick count is below the timeout, poll whether the Server task is
still in the task store and sleep one tick while it is.  `remaining` is the
number of ticks left before the timeout (`timeout - elapsed`); the result is
the elapsed tick at which the wait ends. -/
def gsdTaskWait (task_alive : Nat → Bool) : Nat → Nat → Nat
  | elapsed, 0 => elapsed
  | elapsed, remaining + 1 =>
      if task_alive elapsed then gsdTaskWait task_alive (elapsed + 1) remaining
      else elapsed

/-- mod.rs `graceful_shutdown_with_timeout`, drain loop: while the sampled
active-connection count is positive and the elapsed tick count is below the
timeout, sleep one tick and re-sample.  Returns the last sampled count
(`active` is the count sampled at tick `elapsed`). -/
def gsdDrain (conns : Nat → Nat) : Nat → Nat → Nat → Nat
  | _, 0, active => active
  | elapsed, remaining + 1, active =>
      if active > 0 then gsdDrain conns (elapsed + 1) remaining (conns (elapsed + 1))
      else active

/-- mod.rs: `WebServer::graceful_shutdown_with_timeout`.  Requests graceful
shutdown (status → Shutdown), waits for the Server task to leave the task
store, then polls the active-connection count until it reaches zero or the
timeout elapses, and finally force-stops the record.  Returns whether the
drain completed (last sampled count zero) together with the stopped record.
`task_alive` and `conns` are the poll-tick oracles for the concurrently
mutated task store and connection counter. -/
def WebServer.graceful_shutdown_with_timeout (s : WebServer) (timeout : Nat)
    (task_alive : Nat → Bool) (conns : Nat → Nat) : Bool × WebServer :=
  let s := s.graceful_shutdown
  let e0 := gsdTaskWait task_alive 0 timeout
  let afin := gsdDrain conns e0 (timeout - e0) (conns e0)
  (afin == 0, s.stop)

/-- manager.rs: `graceful_shutdown_server`, the directly awaited variant:
runs the record's timed graceful shutdown when the port is present (storing
the stopped record back into the map) and returns false otherwise. -/
def WebServerManager.graceful_shutdown_server (m : WebServerManager) (p : WebPort)
    (timeout : Nat) (task_alive : Nat → Bool) (conns : Nat → Nat) :
    Bool × WebServerManager :=
  match m.servers p with
  | some s =>
      let r := s.graceful_shutdown_with_timeout timeout task_alive conns
      (r.1, m.update p r.2)
  | none => (false, m)

/-- manager.rs `shutdown_server` monitor loop: each tick, if the record is
gone, or the timeout has been reached, or the active count is zero, the
monitoring ends; otherwise sleep one tick.  `has_at`/`conns` are poll-tick
oracles; the fuel argument is `timeout + 1 - elapsed`, enough for the
timeout branch to fire.  Returns the tick at which monitoring ended. -/
def shutdownMonitorLoop (has_at : Nat → Bool) (conns : Nat → Nat) (timeout : Nat) :
    Nat → Nat → Nat
  | elapsed, 0 => elapsed
  | elapsed, remaining + 1 =>
      if has_at elapsed then
        if timeout ≤ elapsed then elapsed
        else if conns elapsed = 0 then elapsed
        else shutdownMonitorLoop has_at conns timeout (elapsed + 1) remaining
      else elapsed

/-- manager.rs: `shutdown_server(port, timeout)`, the spawned monitor task:
after its polling loop ends — drain observed, timeout reached, or record
already gone — it force-removes the record from the map.  Returns the exit
tick of the loop together with the resulting map. -/
def WebServerManager.shutdown_server (m : WebServerManager) (p : WebPort)
    (timeout : Nat) (has_at : Nat → Bool) (conns : Nat → Nat) :
    Nat × WebServerManager :=
  (shutdownMonitorLoop has_at conns timeout 0 (timeout + 1), m.remove_server p)

/-- manager.rs: `graceful_shutdown_with_timeout(port, timeout, commands)`,
the spawning variant: when the port is present it sets the status to
ShuttingDown (the inner `graceful_shutdown` call then skips, as the status is
already ShuttingDown) and spawns the `shutdown_server` monitor; when absent
it only warns.  The spawned monitor itself is `shutdown_server`. -/
def WebServerManager.graceful_shutdown_with_timeout_spawn (m : WebServerManager)
    (p : WebPort) : WebServerManager :=
  match m.servers p with
  | some s => m.update p (s.set_status .ShuttingDown)
  | none => m

/-! Helper lemmas. -/

lemma iterate_new_connection (n : Nat) (t : ConnectionTracker) :
    ConnectionTracker.new_connection^[n] t
      = ⟨t.active_count + n, t.total_count + n⟩ := by
  induction n generalizing t with
  | zero => cases t; simp
  | succ k ih =>
      rw [Function.iterate_succ_apply, ih]
      simp [ConnectionTracker.new_connection]
      omega

lemma iterate_guard_drop (n : Nat) (t : ConnectionTracker) :
    ConnectionTracker.guard_drop^[n] t
      = ⟨t.active_count - n, t.total_count⟩ := by
  induction n generalizing t with
  | zero => cases t; simp
  | succ k ih =>
      rw [Function.iterate_succ_apply, ih]
      simp [ConnectionTracker.guard_drop]
      omega

/-! Claim theorems. -/

/-- C8: starting from a fresh Connection Tracker, N `new_connection` calls
followed by dropping M ≤ N of the returned guards (every guard drop performs
the same decrement of the shared active counter, so drop order is
immaterial) leave `active_connections = N - M` and `total_connections = N`;
a guard drop decrements only the active counter and never changes the total
counter. -/
theorem C8_connection_tracker_algebra (N M : Nat) (_h : M ≤ N) :
    (ConnectionTracker.guard_drop^[M]
        (ConnectionTracker.new_connection^[N] ConnectionTracker.default)).active_connections
        = N - M ∧
      (ConnectionTracker.guard_drop^[M]
        (ConnectionTracker.new_connection^[N] ConnectionTracker.default)).total_connections
        = N ∧
      ∀ t : ConnectionTracker,
        t.guard_drop.total_connections = t.total_connections ∧
        t.guard_drop.active_count = t.active_count - 1 := by
  rw [iterate_new_connection, iterate_guard_drop]
  refine ⟨by simp [ConnectionTracker.default, ConnectionTracker.active_connections],
          by simp [ConnectionTracker.default, ConnectionTracker.total_connections],
          fun t => ⟨rfl, rfl⟩⟩

/-- Witness for C8 at N = 3, M = 2. -/
theorem C8_witness :
    2 ≤ 3 ∧
      (ConnectionTracker.guard_drop^[2]
        (ConnectionTracker.new_connection^[3] ConnectionTracker.default)).active_connections
        = 3 - 2 :=
  ⟨by decide, (C8_connection_tracker_algebra 3 2 (by decide)).1⟩

/-- C7: a successful `add_server` makes `has_server(port)` true, and an
`add_server` on an already-occupied port always returns the
ServerAlreadyRunning error while leaving the whole map — in particular the
existing record — unchanged. -/
theorem C7_add_server (m : WebServerManager) (s : WebServer) (bind : Option String)
    (now : Nat) :
    (m.has_server s.port = false →
      (m.add_server s bind now).1 = .ok () ∧
        (m.add_server s bind now).2.has_server s.port = true) ∧
      (m.has_server s.port = true →
        m.add_server s bind now = (.error (.ServerAlreadyRunning s.port), m)) := by
  constructor
  · intro h
    simp only [WebServerManager.has_server] at h
    cases bind <;>
      simp [WebServerManager.add_server, h, WebServerManager.has_server,
        WebServerManager.update]
  · intro h
    simp only [WebServerManager.has_server] at h
    simp [WebServerManager.add_server, WebServerManager.has_server, h]

/-- Witness for C7: adding on a fresh port succeeds and marks the port
present; a second add on the same port returns ServerAlreadyRunning with the
map untouched. -/
theorem C7_witness :
    ((WebServerManager.empty.add_server (WebServer.new 0 5 ⟨1⟩) none 0).1 = .ok () ∧
      (WebServerManager.empty.add_server (WebServer.new 0 5 ⟨1⟩) none 0).2.has_server 5
        = true) ∧
      (WebServerManager.empty.add_server (WebServer.new 0 5 ⟨1⟩) none 0).2.add_server
          (WebServer.new 7 5 ⟨2⟩) none 3
        = (.error (.ServerAlreadyRunning 5),
            (WebServerManager.empty.add_server (WebServer.new 0 5 ⟨1⟩) none 0).2) :=
  ⟨(C7_add_server WebServerManager.empty (WebServer.new 0 5 ⟨1⟩) none 0).1 (by decide),
    (C7_add_server (WebServerManager.empty.add_server (WebServer.new 0 5 ⟨1⟩) none 0).2
      (WebServer.new 7 5 ⟨2⟩) none 3).2 (by decide)⟩

/-- C10: `set_error(e)` stores `some e` in `last_error` and sets the status
to Failed; consequently the add-time bind-probe failure path, which inserts
`(server.set_error(err)).schedule_retry(now)`, passes through the Failed
status before `schedule_retry` moves the record on to Retrying (when the
retry cap has not been reached). -/
theorem C10_set_error_failed (m : WebServerManager) (s : WebServer) (e : String)
    (now : Nat) :
    ((s.set_error e).last_error = some e ∧ (s.set_error e).status = .Failed) ∧
      (m.has_server s.port = false →
        (m.add_server s (some e) now).2.servers s.port
          = some ((s.set_error e).schedule_retry now)) ∧
      (s.retry_count < MAX_RETRY_ATTEMPTS →
        ((s.set_error e).schedule_retry now).status = .Retrying) := by
  refine ⟨⟨rfl, rfl⟩, ?_, ?_⟩
  · intro h
    simp [WebServerManager.add_server, h, WebServerManager.update]
  · intro h
    simp [WebServer.schedule_retry, WebServer.set_error, h]

/-- Witness for C10 on a fresh server and empty manager. -/
theorem C10_witness :
    (WebServerManager.empty.add_server (WebServer.new 0 9 ⟨1⟩) (some "Port 9 is already in use") 0).2.servers 9
        = some (((WebServer.new 0 9 ⟨1⟩).set_error "Port 9 is already in use").schedule_retry 0) ∧
      (((WebServer.new 0 9 ⟨1⟩).set_error "Port 9 is already in use").schedule_retry 0).status
        = .Retrying :=
  ⟨(C10_set_error_failed WebServerManager.empty (WebServer.new 0 9 ⟨1⟩)
      "Port 9 is already in use" 0).2.1 (by decide),
    (C10_set_error_failed WebServerManager.empty (WebServer.new 0 9 ⟨1⟩)
      "Port 9 is already in use" 0).2.2 (by decide)⟩

/-- C5 counterexample: a freshly added record is in status Stopped, yet the
very next reconciliation pass moves it to Starting — so Stopped is not
terminal with respect to reconciliation, contrary to the claim that
reconciliation never moves a Stopped record to Starting. -/
theorem C5_counterexample :
    (WebServer.new 0 1 ⟨1⟩).status = .Stopped ∧
      (((WebServerManager.empty.update 1 (WebServer.new 0 1 ⟨1⟩)).changed 0 true).servers
            1).map WebServer.status
        = some .Starting := by
  decide

/-- C5 (amended): Failed is terminal for reconciliation — a Failed record is
left completely untouched by any `changed` pass — whereas a Stopped record
with no listener task is moved to Starting by the next pass (Stopped is the
launch state, not a terminal one). -/
theorem C5_failed_terminal (m : WebServerManager) (p : WebPort) (s : WebServer)
    (now : Nat) (dirty : Bool) (h : m.servers p = some s) :
    (s.status = .Failed → (m.changed now dirty).servers p = some s) ∧
      (s.status = .Stopped → s.task_store.contains_key .Server = false →
        ((m.changed now true).servers p).map WebServer.status = some .Starting) := by
  constructor
  · intro hst
    cases dirty <;>
      simp [WebServerManager.changed, h, WebServerManager.changed_server, hst,
        ServerStatus.can_start]
  · intro hst htask
    simp [WebServerManager.changed, h, WebServerManager.changed_server, hst, htask,
      ServerStatus.can_start, WebServer.start_record, WebServer.set_status,
      WebServer.clear_error]

/-- Witness for C5 on a concrete Failed record and a concrete Stopped
record. -/
theorem C5_witness :
    ((WebServerManager.empty.update 2
          { WebServer.new 0 2 ⟨1⟩ with status := .Failed }).changed 5 true).servers 2
        = some { WebServer.new 0 2 ⟨1⟩ with status := .Failed } ∧
      ((((WebServerManager.empty.update 4 (WebServer.new 0 4 ⟨1⟩)).changed 5
              true).servers 4).map WebServer.status
        = some .Starting) :=
  ⟨(C5_failed_terminal (WebServerManager.empty.update 2
        { WebServer.new 0 2 ⟨1⟩ with status := .Failed }) 2
        { WebServer.new 0 2 ⟨1⟩ with status := .Failed } 5 true (by decide)).1 (by decide),
    (C5_failed_terminal (WebServerManager.empty.update 4 (WebServer.new 0 4 ⟨1⟩)) 4
        (WebServer.new 0 4 ⟨1⟩) 5 true (by decide)).2 (by decide) (by decide)⟩

lemma set_error_retry_count (s : WebServer) (e : String) :
    (s.set_error e).retry_count = s.retry_count := rfl

lemma set_status_retry_count (s : WebServer) (st : ServerStatus) :
    (s.set_status st).retry_count = s.retry_count := rfl

lemma schedule_retry_retry_count (s : WebServer) (now : Nat) :
    (s.schedule_retry now).retry_count
      = if s.retry_count < MAX_RETRY_ATTEMPTS then s.retry_count + 1
        else s.retry_count := by
  simp only [WebServer.schedule_retry, WebServer.set_error]
  split <;> rfl

set_option maxRecDepth 100000 in
/-- C2 counterexample: after exactly 100 consecutive failed bind attempts on
a fresh server the retry count has reached the cap of 100, but the status is
Retrying — not Failed with a terminal message, as the claim states happens
upon reaching the cap. -/
theorem C2_counterexample :
    (Nat.iterate
        (fun s => s.handle_run_result (some "Failed to bind to 0:7: port busy") 0) 100
        (WebServer.new 0 7 ⟨1⟩)).retry_count = 100 ∧
      (Nat.iterate
          (fun s => s.handle_run_result (some "Failed to bind to 0:7: port busy") 0) 100
          (WebServer.new 0 7 ⟨1⟩)).status = .Retrying ∧
      ¬(Nat.iterate
          (fun s => s.handle_run_result (some "Failed to bind to 0:7: port busy") 0) 100
          (WebServer.new 0 7 ⟨1⟩)).status = .Failed := by
  decide

/-- C2 (amended): `retry_count` is non-decreasing across failed start
attempts and, once at most 100, stays at most 100; when it has reached the
cap a Retrying record is left untouched by reconciliation (no further
automatic Starting attempts), remaining in Retrying; the Failed status with
the terminal "Max retry attempts reached" message is produced by
`schedule_retry` only when a further failed attempt is forced at the cap. -/
theorem C2_retry_cap (s : WebServer) (now : Nat) (err : String) (result : Option String) :
    s.retry_count ≤ (s.handle_run_result (some err) now).retry_count ∧
      (s.retry_count ≤ MAX_RETRY_ATTEMPTS →
        (s.handle_run_result result now).retry_count ≤ MAX_RETRY_ATTEMPTS) ∧
      (s.status = .Retrying → MAX_RETRY_ATTEMPTS ≤ s.retry_count →
        WebServerManager.changed_server now s = s) ∧
      (MAX_RETRY_ATTEMPTS ≤ s.retry_count →
        (s.schedule_retry now).status = .Failed ∧
          (s.schedule_retry now).last_error = some "Max retry attempts reached") := by
  refine ⟨?_, ?_, ?_, ?_⟩
  · simp only [WebServer.handle_run_result]
    split_ifs
    · rw [schedule_retry_retry_count, set_error_retry_count]
      split_ifs <;> omega
    · rw [set_status_retry_count, set_error_retry_count]
  · intro hle
    cases result with
    | none => simpa [WebServer.handle_run_result, set_status_retry_count] using hle
    | some e =>
        simp only [WebServer.handle_run_result]
        split_ifs
        · rw [schedule_retry_retry_count, set_error_retry_count]
          split_ifs <;> omega
        · rw [set_status_retry_count, set_error_retry_count]; exact hle
  · intro hst hcap
    have hsr : s.should_retry now = false := by
      simp [WebServer.should_retry, hcap]
    simp [WebServerManager.changed_server, hst, hsr]
  · intro hcap
    have hlt : ¬s.retry_count < MAX_RETRY_ATTEMPTS := by omega
    simp [WebServer.schedule_retry, hlt, WebServer.set_error]

/-- Witness for C2 on a record sitting at the retry cap. -/
theorem C2_witness :
    WebServerManager.changed_server 0
        { WebServer.new 0 3 ⟨1⟩ with status := .Retrying, retry_count := 100 }
      = { WebServer.new 0 3 ⟨1⟩ with status := .Retrying, retry_count := 100 } ∧
      ({ WebServer.new 0 3 ⟨1⟩ with
          status := .Retrying, retry_count := 100 : WebServer }.schedule_retry 0).status
        = .Failed ∧
      ({ WebServer.new 0 3 ⟨1⟩ with
          status := .Retrying, retry_count := 100 : WebServer }.handle_run_result
            (some "x") 0).retry_count ≤ MAX_RETRY_ATTEMPTS :=
  ⟨(C2_retry_cap { WebServer.new 0 3 ⟨1⟩ with status := .Retrying, retry_count := 100 }
      0 "x" (some "x")).2.2.1 (by decide) (by decide),
    ((C2_retry_cap { WebServer.new 0 3 ⟨1⟩ with status := .Retrying, retry_count := 100 }
      0 "x" (some "x")).2.2.2 (by decide)).1,
    (C2_retry_cap { WebServer.new 0 3 ⟨1⟩ with status := .Retrying, retry_count := 100 }
      0 "x" (some "x")).2.1 (by decide)⟩

/-- C6 counterexample: a server added while its port is occupied enters
Retrying with `next_retry_time = some 10000`; when the retry timer fires the
reconciliation pass moves it to Starting, yet `next_retry_time` is still
`some 10000` — so `next_retry_time` is Some while the status is not
Retrying, on a state reached purely by automatic transitions. -/
theorem C6_counterexample :
    (((((WebServerManager.empty.add_server (WebServer.new 0 1 ⟨1⟩)
              (some "Port 1 is already in use") 0).2.changed 10000 true).servers 1).map
          WebServer.status)
        = some .Starting) ∧
      (((((WebServerManager.empty.add_server (WebServer.new 0 1 ⟨1⟩)
              (some "Port 1 is already in use") 0).2.changed 10000 true).servers 1).map
          WebServer.next_retry_time)
        = some (some 10000)) := by
  decide

/-- C6 (amended): `next_retry_time` is stamped (with now + 10 s) exactly when
`schedule_retry` enters Retrying below the cap, and it is cleared on any
successful bind (`reset_retry_count`, applied by the accept loop's
bind-success path); it is however not cleared when reconciliation moves the
record from Retrying to Starting for the next attempt, so it can remain Some
outside the Retrying status. -/
theorem C6_next_retry_time (s : WebServer) (now : Nat) (m : WebServerManager)
    (p : WebPort) (s2 : WebServer) :
    (s.retry_count < MAX_RETRY_ATTEMPTS →
      (s.schedule_retry now).next_retry_time = some (now + retryDelayMillis) ∧
        (s.schedule_retry now).status = .Retrying) ∧
      s.reset_retry_count.next_retry_time = none ∧
      (m.servers p = some s2 →
        ((m.bind_success p).servers p).map WebServer.next_retry_time = some none) ∧
      s.start_record.next_retry_time = s.next_retry_time := by
  refine ⟨?_, rfl, ?_, rfl⟩
  · intro h
    simp [WebServer.schedule_retry, h]
  · intro h
    simp [WebServerManager.bind_success, h, WebServerManager.update,
      WebServer.reset_retry_count, WebServer.set_status]

/-- Witness for C6 on a concrete retrying record and a concrete map. -/
theorem C6_witness :
    (({ WebServer.new 0 6 ⟨1⟩ with
          status := .Retrying, retry_count := 2,
          next_retry_time := some 5 : WebServer }.schedule_retry 40).next_retry_time
        = some (40 + retryDelayMillis)) ∧
      ((((WebServerManager.empty.update 6
              { WebServer.new 0 6 ⟨1⟩ with
                next_retry_time := some 5 : WebServer }).bind_success 6).servers 6).map
          WebServer.next_retry_time
        = some none) :=
  ⟨((C6_next_retry_time
        { WebServer.new 0 6 ⟨1⟩ with
          status := .Retrying, retry_count := 2, next_retry_time := some 5 } 40
        WebServerManager.empty 6 (WebServer.new 0 6 ⟨1⟩)).1 (by decide)).1,
    (C6_next_retry_time (WebServer.new 0 6 ⟨1⟩) 0
        (WebServerManager.empty.update 6
          { WebServer.new 0 6 ⟨1⟩ with next_retry_time := some 5 }) 6
        { WebServer.new 0 6 ⟨1⟩ with next_retry_time := some 5 }).2.2.1 (by decide)⟩

/-- C3 counterexample: a server is added with handler 1 and its accept loop
starts, capturing service 1; `set_router` then swaps the record's handler to
2, but the very next connection accepted on the already-running listener is
still served by the captured handler 1, not by the new handler 2 — contrary
to the claim that the next accepted connection is served by the new
handler. -/
theorem C3_counterexample :
    (WebServerManager.empty.update 1 (WebServer.new 0 1 ⟨1⟩)).start_accept_loop 1
        = some ⟨0, 1, ⟨1⟩⟩ ∧
      (accept_loop_iteration ⟨0, 1, ⟨1⟩⟩
            ((WebServerManager.empty.update 1 (WebServer.new 0 1 ⟨1⟩)).set_router 1 ⟨2⟩)
            true).1
        = .accepted ⟨1⟩ 0 ∧
      ¬(Router.mk 1 = Router.mk 2) := by
  decide

/-- C3 (amended): `set_router` replaces the handler of an existing record
while leaving every other field — in particular the status — unchanged; an
accept loop captures the record's handler when it starts, and every
connection it subsequently accepts is served with that captured handler, so
a swap takes effect only for accept loops started after it (not for the
already-running listener). -/
theorem C3_set_router (m : WebServerManager) (p : WebPort) (r : Router) (s : WebServer)
    (h : m.servers p = some s) :
    (m.set_router p r).servers p = some { s with router := r } ∧
      m.start_accept_loop p = some ⟨s.ip, s.port, s.router⟩ ∧
      (m.set_router p r).start_accept_loop p = some ⟨s.ip, s.port, r⟩ ∧
      ∀ (st : AcceptLoopState) (m2 : WebServerManager) (s2 : WebServer),
        m2.servers st.port = some s2 → s2.status.shutdown_requested = false →
        (accept_loop_iteration st m2 true).1 = .accepted st.service s2.next_connection_id := by
  refine ⟨?_, ?_, ?_, ?_⟩
  · simp [WebServerManager.set_router, h, WebServerManager.update]
  · simp [WebServerManager.start_accept_loop, h]
  · simp [WebServerManager.set_router, WebServerManager.start_accept_loop, h,
      WebServerManager.update]
  · intro st m2 s2 h2 hsd
    simp [accept_loop_iteration, h2, hsd]

/-- Witness for C3 on a concrete record with a running accept loop and a
swapped router. -/
theorem C3_witness :
    ((WebServerManager.empty.update 8 (WebServer.new 0 8 ⟨1⟩)).set_router 8 ⟨2⟩).servers 8
        = some { WebServer.new 0 8 ⟨1⟩ with router := ⟨2⟩ } ∧
      (accept_loop_iteration ⟨0, 8, ⟨1⟩⟩
            (WebServerManager.empty.update 8 { WebServer.new 0 8 ⟨1⟩ with router := ⟨2⟩ })
            true).1
        = .accepted ⟨1⟩ 0 :=
  ⟨(C3_set_router (WebServerManager.empty.update 8 (WebServer.new 0 8 ⟨1⟩)) 8 ⟨2⟩
      (WebServer.new 0 8 ⟨1⟩) (by decide)).1,
    (C3_set_router (WebServerManager.empty.update 8 (WebServer.new 0 8 ⟨1⟩)) 8 ⟨2⟩
      (WebServer.new 0 8 ⟨1⟩) (by decide)).2.2.2 ⟨0, 8, ⟨1⟩⟩
      (WebServerManager.empty.update 8 { WebServer.new 0 8 ⟨1⟩ with router := ⟨2⟩ })
      { WebServer.new 0 8 ⟨1⟩ with router := ⟨2⟩ } (by decide) (by decide)⟩

/-- C4: when the accept loop observes the shutdown flag it does return
normally with the map untouched (the record keeps its Shutdown status), but
the spawned server task's completion callback then runs on the `Ok` result
and sets the record's status to Running — altering the status the claim says
is left alone.  Evaluated at the failing input: a server on port 1 in status
Shutdown. -/
theorem C4_completion_overwrites_shutdown :
    (accept_loop_iteration ⟨0, 1, ⟨1⟩⟩
          (WebServerManager.empty.update 1
            { WebServer.new 0 1 ⟨1⟩ with status := .Shutdown }) true).1
        = .exited ∧
      (((accept_loop_iteration ⟨0, 1, ⟨1⟩⟩
            (WebServerManager.empty.update 1
              { WebServer.new 0 1 ⟨1⟩ with status := .Shutdown }) true).2.servers 1).map
          WebServer.status
        = some .Shutdown) ∧
      ((((WebServerManager.empty.update 1
              { WebServer.new 0 1 ⟨1⟩ with status := .Shutdown }).server_task_completion 1
            none 0).2.servers 1).map WebServer.status
        = some .Running) ∧
      ¬((((WebServerManager.empty.update 1
              { WebServer.new 0 1 ⟨1⟩ with status := .Shutdown }).server_task_completion 1
            none 0).2.servers 1).map WebServer.status
          = some .Shutdown) := by
  decide

/-- C9: a failure of the spawned server task is never propagated — the task
always resolves to Ok — and the error text is written into `last_error`;
a non-bind-class failure leaves the record Failed, while a bind-class
("port unavailable") failure below the retry cap moves it to Retrying with
`retry_count` incremented and `next_retry_time = now + 10 s`. -/
theorem C9_task_failure_handling (m : WebServerManager) (p : WebPort) (s : WebServer)
    (err : String) (now : Nat) (result : Option String) (h : m.servers p = some s) :
    (m.server_task_completion p result now).1 = .ok () ∧
      (bindClassError err = false →
        (m.server_task_completion p (some err) now).2.servers p
          = some { s with last_error := some err, status := .Failed }) ∧
      (bindClassError err = true → s.retry_count < MAX_RETRY_ATTEMPTS →
        (m.server_task_completion p (some err) now).2.servers p
          = some { s with
                    last_error := some err
                    status := .Retrying
                    retry_count := s.retry_count + 1
                    next_retry_time := some (now + retryDelayMillis) }) := by
  refine ⟨?_, ?_, ?_⟩
  · simp [WebServerManager.server_task_completion, h]
  · intro hb
    simp [WebServerManager.server_task_completion, h, WebServer.handle_run_result, hb,
      WebServer.set_error, WebServer.set_status, WebServerManager.update]
  · intro hb hcount
    simp [WebServerManager.server_task_completion, h, WebServer.handle_run_result, hb,
      WebServer.set_error, WebServer.schedule_retry, hcount, WebServerManager.update]

/-- Witness for C9: a bind-class error ("Port 9 is already in use") schedules
a retry, a non-bind error ("connection reset by peer") leaves the record
Failed, and the task resolves Ok in both cases. -/
theorem C9_witness :
    ((WebServerManager.empty.update 9 (WebServer.new 0 9 ⟨1⟩)).server_task_completion 9
          (some "connection reset by peer") 0).1 = .ok () ∧
      ((WebServerManager.empty.update 9 (WebServer.new 0 9 ⟨1⟩)).server_task_completion 9
            (some "connection reset by peer") 0).2.servers 9
        = some { WebServer.new 0 9 ⟨1⟩ with
                  last_error := some "connection reset by peer", status := .Failed } ∧
      ((WebServerManager.empty.update 9 (WebServer.new 0 9 ⟨1⟩)).server_task_completion 9
            (some "Port 9 is already in use") 20).2.servers 9
        = some { WebServer.new 0 9 ⟨1⟩ with
                  last_error := some "Port 9 is already in use"
                  status := .Retrying
                  retry_count := 1
                  next_retry_time := some (20 + retryDelayMillis) } :=
  ⟨(C9_task_failure_handling (WebServerManager.empty.update 9 (WebServer.new 0 9 ⟨1⟩)) 9
      (WebServer.new 0 9 ⟨1⟩) "connection reset by peer" 0
      (some "connection reset by peer") (by decide)).1,
    (C9_task_failure_handling (WebServerManager.empty.update 9 (WebServer.new 0 9 ⟨1⟩)) 9
      (WebServer.new 0 9 ⟨1⟩) "connection reset by peer" 0
      (some "connection reset by peer") (by decide)).2.1 (by decide),
    (C9_task_failure_handling (WebServerManager.empty.update 9 (WebServer.new 0 9 ⟨1⟩)) 9
      (WebServer.new 0 9 ⟨1⟩) "Port 9 is already in use" 20
      (some "Port 9 is already in use") (by decide)).2.2 (by decide) (by decide)⟩

lemma gsdTaskWait_le (ta : Nat → Bool) (r : Nat) : ∀ e, gsdTaskWait ta e r ≤ e + r := by
  induction r with
  | zero => intro e; simp [gsdTaskWait]
  | succ k ih =>
      intro e
      simp only [gsdTaskWait]
      split
      · have := ih (e + 1)
        omega
      · omega

lemma gsdDrain_zero_iff (conns : Nat → Nat) (r : Nat) :
    ∀ e, gsdDrain conns e r (conns e) = 0 ↔ ∃ t, e ≤ t ∧ t ≤ e + r ∧ conns t = 0 := by
  induction r with
  | zero =>
      intro e
      simp only [gsdDrain]
      constructor
      · intro h
        exact ⟨e, le_refl e, by omega, h⟩
      · rintro ⟨t, h1, h2, h3⟩
        have hte : t = e := by omega
        exact hte ▸ h3
  | succ k ih =>
      intro e
      simp only [gsdDrain]
      by_cases h0 : conns e = 0
      · simp [h0]
        exact ⟨e, le_refl e, by omega, h0⟩
      · have hpos : conns e > 0 := Nat.pos_of_ne_zero h0
        simp only [if_pos hpos]
        rw [ih (e + 1)]
        constructor
        · rintro ⟨t, h1, h2, h3⟩
          exact ⟨t, by omega, by omega, h3⟩
        · rintro ⟨t, h1, h2, h3⟩
          have hne : t ≠ e := fun hte => h0 (hte ▸ h3)
          exact ⟨t, by omega, by omega, h3⟩

/-- C1 counterexample: a server on port 1 with no listener task and no
active connections drains immediately, so `graceful_shutdown_server(1, 5)`
returns true — yet afterwards the server is still in the supervisor's map
(`has_server(1) = true`), contradicting the claim that the server is always
absent after the call. -/
theorem C1_counterexample :
    ((WebServerManager.empty.update 1 (WebServer.new 0 1 ⟨1⟩)).graceful_shutdown_server 1 5
          (fun _ => false) (fun _ => 0)).1 = true ∧
      ((WebServerManager.empty.update 1 (WebServer.new 0 1 ⟨1⟩)).graceful_shutdown_server 1
            5 (fun _ => false) (fun _ => 0)).2.has_server 1 = true := by
  decide

/-- C1 (amended): the awaited `graceful_shutdown_server(P, T)` returns true
iff a zero active-connection count is sampled at some poll tick between the
end of the listener-task wait phase and T inclusive (the drain may thus be
credited at, not strictly before, T); afterwards the record remains in the
map — `has_server(P)` stays true — force-stopped (status Stopped, all tasks
cleared).  Only the spawned monitor variant `shutdown_server` removes the
record (`has_server(P) = false` afterwards), and it returns no drain
indicator. -/
theorem C1_graceful_shutdown (m : WebServerManager) (p : WebPort) (s : WebServer)
    (T : Nat) (ta : Nat → Bool) (conns : Nat → Nat) (has_at : Nat → Bool)
    (conns2 : Nat → Nat) (h : m.servers p = some s) :
    (m.graceful_shutdown_server p T ta conns).2.has_server p = true ∧
      ((m.graceful_shutdown_server p T ta conns).2.servers p).map WebServer.status
        = some .Stopped ∧
      ((m.graceful_shutdown_server p T ta conns).2.servers p).map WebServer.task_store
        = some TaskStore.default ∧
      ((m.graceful_shutdown_server p T ta conns).1 = true ↔
        ∃ t, gsdTaskWait ta 0 T ≤ t ∧ t ≤ T ∧ conns t = 0) ∧
      (m.shutdown_server p T has_at conns2).2.has_server p = false := by
  have hle : gsdTaskWait ta 0 T ≤ T := by
    have := gsdTaskWait_le ta T 0
    omega
  refine ⟨?_, ?_, ?_, ?_, ?_⟩
  · simp [WebServerManager.graceful_shutdown_server, h, WebServerManager.has_server,
      WebServerManager.update]
  · simp [WebServerManager.graceful_shutdown_server, h, WebServerManager.update,
      WebServer.graceful_shutdown_with_timeout, WebServer.stop,
      WebServer.graceful_shutdown, WebServer.set_status]
  · simp [WebServerManager.graceful_shutdown_server, h, WebServerManager.update,
      WebServer.graceful_shutdown_with_timeout, WebServer.stop,
      WebServer.graceful_shutdown, WebServer.set_status, TaskStore.clear,
      TaskStore.default]
  · simp only [WebServerManager.graceful_shutdown_server, h,
      WebServer.graceful_shutdown_with_timeout, beq_iff_eq]
    rw [gsdDrain_zero_iff]
    have he : gsdTaskWait ta 0 T + (T - gsdTaskWait ta 0 T) = T := by omega
    rw [he]
  · simp [WebServerManager.shutdown_server, WebServerManager.remove_server,
      WebServerManager.has_server]

/-- Witness for C1: on a concrete one-server map, the awaited variant leaves
the record present and Stopped while the spawned monitor removes it. -/
theorem C1_witness :
    (((WebServerManager.empty.update 3 (WebServer.new 0 3 ⟨1⟩)).graceful_shutdown_server 3
            2 (fun _ => true) (fun t => 1 - t)).2.servers 3).map WebServer.status
        = some .Stopped ∧
      ((WebServerManager.empty.update 3
            (WebServer.new 0 3 ⟨1⟩)).shutdown_server 3 2 (fun _ => true)
          (fun _ => 0)).2.has_server 3 = false :=
  ⟨(C1_graceful_shutdown (WebServerManager.empty.update 3 (WebServer.new 0 3 ⟨1⟩)) 3
      (WebServer.new 0 3 ⟨1⟩) 2 (fun _ => true) (fun t => 1 - t) (fun _ => true)
      (fun _ => 0) (by decide)).2.1,
    (C1_graceful_shutdown (WebServerManager.empty.update 3 (WebServer.new 0 3 ⟨1⟩)) 3
      (WebServer.new 0 3 ⟨1⟩) 2 (fun _ => true) (fun t => 1 - t) (fun _ => true)
      (fun _ => 0) (by decide)).2.2.2.2⟩

end BevyWebgate
